import Mathlib

/-!
Shallow embedding of the Composite Materials Property Prediction API
(`src/app.py`) and verification of its specification.

Modelling conventions:
* Python dicts with string keys become association lists `List (String × _)`;
  `d.get(k, default)` becomes `(l.lookup k).getD default` and `k in d` becomes
  `(l.lookup k).isSome`.
* Python floats are modelled exactly as rationals `ℚ`.  `round(x, 1)` is
  modelled as exact round-half-to-even at one decimal place (`round1`), the
  convention Python's `round` implements on exact values.
* The Flask boundary handlers `predict` and `predict_batch` are modelled as
  pure functions from request values to response values; raising `ValueError`
  in `float(...)` is modelled by an `Except`-valued conversion.
-/

/-- A record of the seven baseline material properties, the value type of the
inner dictionaries of `MATERIALS_DB` (keys `ts tm cs fs fm ilss ie`). -/
structure PropRecord where
  ts : ℚ
  tm : ℚ
  cs : ℚ
  fs : ℚ
  fm : ℚ
  ilss : ℚ
  ie : ℚ
deriving DecidableEq

/-- The seven-field output dictionary of `predict_properties`. -/
structure Predictions where
  tensile_strength_MPa : ℚ
  tensile_modulus_GPa : ℚ
  compressive_strength_MPa : ℚ
  flexural_strength_MPa : ℚ
  flexural_modulus_GPa : ℚ
  ILSS_MPa : ℚ
  impact_energy_J : ℚ
deriving DecidableEq

/-- The record `MATERIALS_DB['Carbon']['Epoxy']`, named so the defensive
fallback in `predict_properties` can reference it directly. -/
def CarbonEpoxy : PropRecord := ⟨1500, 130, 1200, 1400, 125, 75, 18⟩

/-- The material properties database (`MATERIALS_DB` in `src/app.py`). -/
def MATERIALS_DB : List (String × List (String × PropRecord)) :=
  [ ("Carbon",
      [ ("Epoxy", CarbonEpoxy),
        ("Polyester", ⟨1200, 110, 950, 1150, 105, 62, 15⟩),
        ("Vinyl_ester", ⟨1350, 120, 1050, 1250, 115, 68, 16⟩),
        ("PEEK", ⟨1800, 145, 1400, 1650, 138, 88, 25⟩),
        ("PA6", ⟨1400, 125, 1100, 1300, 120, 70, 20⟩) ]),
    ("Glass",
      [ ("Epoxy", ⟨420, 26, 280, 550, 24, 40, 27⟩),
        ("Polyester", ⟨350, 22, 230, 450, 20, 32, 22⟩),
        ("Vinyl_ester", ⟨385, 24, 255, 500, 22, 36, 24⟩),
        ("PEEK", ⟨480, 30, 320, 620, 28, 46, 32⟩),
        ("PA6", ⟨400, 25, 270, 520, 23, 38, 26⟩) ]),
    ("Aramid",
      [ ("Epoxy", ⟨560, 32, 180, 480, 28, 35, 42⟩),
        ("Polyester", ⟨480, 28, 150, 410, 24, 28, 35⟩),
        ("Vinyl_ester", ⟨520, 30, 165, 445, 26, 31, 38⟩),
        ("PEEK", ⟨620, 36, 200, 530, 32, 40, 48⟩),
        ("PA6", ⟨540, 31, 175, 460, 27, 33, 40⟩) ]),
    ("Basalt",
      [ ("Epoxy", ⟨380, 24, 250, 490, 22, 38, 24⟩),
        ("Polyester", ⟨320, 20, 210, 410, 18, 30, 20⟩),
        ("Vinyl_ester", ⟨350, 22, 230, 450, 20, 34, 22⟩),
        ("PEEK", ⟨430, 27, 280, 550, 25, 43, 28⟩),
        ("PA6", ⟨365, 23, 240, 470, 21, 36, 23⟩) ]),
    ("Natural",
      [ ("Epoxy", ⟨55, 2.5, 45, 85, 3.5, 12, 10⟩),
        ("Polyester", ⟨45, 2.0, 38, 70, 2.8, 9, 8⟩),
        ("Vinyl_ester", ⟨50, 2.2, 41, 77, 3.1, 10, 9⟩),
        ("PEEK", ⟨65, 3.0, 52, 95, 4.0, 14, 12⟩),
        ("PA6", ⟨52, 2.4, 43, 80, 3.3, 11, 9⟩) ]) ]

/-- Layup configuration factors (`LAYUP_FACTORS` in `src/app.py`). -/
def LAYUP_FACTORS : List (String × ℚ) :=
  [ ("UD 0°", 1.0),
    ("UD 90°", 0.4),
    ("Woven", 0.8),
    ("[0/90]2s", 0.85),
    ("[0/45/90/-45]s", 0.75),
    ("[±45]2s", 0.65),
    ("Quasi-isotropic", 0.7) ]

/-- Manufacturing process factors (`MANUFACTURING_FACTORS` in `src/app.py`). -/
def MANUFACTURING_FACTORS : List (String × ℚ) :=
  [ ("Autoclave", 1.0),
    ("VARTM", 0.95),
    ("Hand_layup", 0.85),
    ("Pultrusion", 0.98),
    ("RTM", 0.97),
    ("Compression_molding", 0.93),
    ("Filament_winding", 0.96) ]

/-- Round-half-to-even to the nearest integer, the rounding convention of
Python's builtin `round` on exact values. -/
def roundHalfEven (q : ℚ) : ℤ :=
  if q - ⌊q⌋ < 1 / 2 then ⌊q⌋
  else if 1 / 2 < q - ⌊q⌋ then ⌊q⌋ + 1
  else if ⌊q⌋ % 2 = 0 then ⌊q⌋ else ⌊q⌋ + 1

/-- Rounding to one decimal place, `round(x, 1)`. -/
def round1 (q : ℚ) : ℚ := (roundHalfEven (10 * q) : ℚ) / 10

/-- Line 101: `fiber = fiber_type if fiber_type in MATERIALS_DB else 'Carbon'`. -/
def resolvedFiber (fiber_type : String) : String :=
  if (MATERIALS_DB.lookup fiber_type).isSome then fiber_type else "Carbon"

/-- The sub-table `MATERIALS_DB.get(fiber, {})` of the resolved fiber
(lines 102–103; on line 103 the raising access `MATERIALS_DB[fiber]`
coincides with this because the resolved fiber is always a key). -/
def fiberEntry (fiber_type : String) : List (String × PropRecord) :=
  (MATERIALS_DB.lookup (resolvedFiber fiber_type)).getD []

/-- Line 102: `matrix = matrix_type if matrix_type in MATERIALS_DB.get(fiber, {}) else 'Epoxy'`. -/
def resolvedMatrix (fiber_type matrix_type : String) : String :=
  if ((fiberEntry fiber_type).lookup matrix_type).isSome then matrix_type else "Epoxy"

/-- Line 103: `base = MATERIALS_DB[fiber].get(matrix, MATERIALS_DB['Carbon']['Epoxy'])`. -/
def base_of (fiber_type matrix_type : String) : PropRecord :=
  ((fiberEntry fiber_type).lookup (resolvedMatrix fiber_type matrix_type)).getD CarbonEpoxy

/-- Line 109: `layup_factor = LAYUP_FACTORS.get(layup, 0.85)`. -/
def layup_factor_of (layup : String) : ℚ :=
  (LAYUP_FACTORS.lookup layup).getD 0.85

/-- Line 112: `manuf_factor = MANUFACTURING_FACTORS.get(manufacturing, 0.95)`. -/
def manuf_factor_of (manufacturing : String) : ℚ :=
  (MANUFACTURING_FACTORS.lookup manufacturing).getD 0.95

/-- Lines 106 and 115: `total_factor = (fiber_vf / 0.6) * layup_factor * manuf_factor`. -/
def total_factor_of (fiber_vf : ℚ) (layup manufacturing : String) : ℚ :=
  (fiber_vf / 0.6) * layup_factor_of layup * manuf_factor_of manufacturing

/-- `predict_properties` (lines 86–126 of `src/app.py`). -/
def predict_properties (fiber_type matrix_type : String) (fiber_vf : ℚ)
    (layup manufacturing : String) : Predictions :=
  let base := base_of fiber_type matrix_type
  let total_factor := total_factor_of fiber_vf layup manufacturing
  { tensile_strength_MPa := round1 (base.ts * total_factor),
    tensile_modulus_GPa := round1 (base.tm * total_factor),
    compressive_strength_MPa := round1 (base.cs * total_factor),
    flexural_strength_MPa := round1 (base.fs * total_factor),
    flexural_modulus_GPa := round1 (base.fm * total_factor),
    ILSS_MPa := round1 (base.ilss * total_factor),
    impact_energy_J := round1 (base.ie * total_factor) }

/-- The predictor exactly as §4.1 of the spec words it: resolve the fiber
against the catalog with default `Carbon`, resolve the matrix against the
resolved fiber's sub-table with default `Epoxy`, resolve the base record
(defensively defaulting to Carbon/Epoxy), compute
`vfFactor = fiberVolumeFraction / 0.6`, look up `layupFactor` (default 0.85)
and `manufFactor` (default 0.95), and round each scaled baseline field to one
decimal place. -/
def specPredict (fiberType matrixType : String) (fiberVolumeFraction : ℚ)
    (layup manufacturing : String) : Predictions :=
  let resolvedF := if (MATERIALS_DB.lookup fiberType).isSome then fiberType else "Carbon"
  let subTable := (MATERIALS_DB.lookup resolvedF).getD []
  let resolvedM := if (subTable.lookup matrixType).isSome then matrixType else "Epoxy"
  let base := (subTable.lookup resolvedM).getD CarbonEpoxy
  let vfFactor := fiberVolumeFraction / 0.6
  let layupFactor := (LAYUP_FACTORS.lookup layup).getD 0.85
  let manufFactor := (MANUFACTURING_FACTORS.lookup manufacturing).getD 0.95
  let totalFactor := vfFactor * layupFactor * manufFactor
  { tensile_strength_MPa := round1 (base.ts * totalFactor),
    tensile_modulus_GPa := round1 (base.tm * totalFactor),
    compressive_strength_MPa := round1 (base.cs * totalFactor),
    flexural_strength_MPa := round1 (base.fs * totalFactor),
    flexural_modulus_GPa := round1 (base.fm * totalFactor),
    ILSS_MPa := round1 (base.ilss * totalFactor),
    impact_energy_J := round1 (base.ie * totalFactor) }

/- Helper lemmas about the rounding function. -/

lemma roundHalfEven_eq_low {q : ℚ} {n : ℤ} (h1 : (n : ℚ) ≤ q) (h2 : q - n < 1 / 2) :
    roundHalfEven q = n := by
  have hf : ⌊q⌋ = n := Int.floor_eq_iff.mpr ⟨h1, by linarith⟩
  rw [roundHalfEven, hf, if_pos h2]

lemma roundHalfEven_eq_high {q : ℚ} {n : ℤ} (h1 : 1 / 2 < q - n) (h2 : q < (n : ℚ) + 1) :
    roundHalfEven q = n + 1 := by
  have hf : ⌊q⌋ = n := Int.floor_eq_iff.mpr ⟨by linarith, h2⟩
  rw [roundHalfEven, hf, if_neg (by linarith), if_pos (by linarith)]

lemma roundHalfEven_intCast (n : ℤ) : roundHalfEven (n : ℚ) = n :=
  roundHalfEven_eq_low le_rfl (by norm_num)

lemma round1_intCast (n : ℤ) : round1 (n : ℚ) = (n : ℚ) := by
  have : (10 : ℚ) * n = ((10 * n : ℤ) : ℚ) := by push_cast; ring
  rw [round1, this, roundHalfEven_intCast]
  push_cast
  ring

/-- Evaluation lemma for `round1`: if `10 * q` lies in `[n, n + 1/2)` then
`round1 q = n / 10`. -/
lemma round1_eval_low (n : ℤ) {q : ℚ} (h1 : (n : ℚ) ≤ 10 * q) (h2 : 10 * q - n < 1 / 2) :
    round1 q = (n : ℚ) / 10 := by
  rw [round1, roundHalfEven_eq_low h1 h2]

/-- Evaluation lemma for `round1`: if `10 * q` lies in `(n + 1/2, n + 1)` then
`round1 q = (n + 1) / 10`. -/
lemma round1_eval_high (n : ℤ) {q : ℚ} (h1 : 1 / 2 < 10 * q - n) (h2 : 10 * q < (n : ℚ) + 1) :
    round1 q = ((n : ℚ) + 1) / 10 := by
  rw [round1, roundHalfEven_eq_high h1 h2]
  push_cast
  ring

/-- C1: for every fiber type, matrix type, layup and manufacturing string and
every numeric fiber volume fraction, each of the seven fields returned by
`predict_properties` equals the corresponding baseline field of the resolved
catalog entry multiplied by `(fiberVolumeFraction / 0.6) * layupFactor *
manufFactor` and rounded to one decimal place, where `layupFactor` is the
layup table entry or 0.85 on miss and `manufFactor` is the manufacturing
table entry or 0.95 on miss: the code is exactly the spec's formula
(`specPredict`). -/
theorem predict_properties_eq_spec_formula (fiber_type matrix_type : String) (fiber_vf : ℚ)
    (layup manufacturing : String) :
    predict_properties fiber_type matrix_type fiber_vf layup manufacturing =
      specPredict fiber_type matrix_type fiber_vf layup manufacturing := rfl

/-- C2: the reference point. Carbon/Epoxy at fiber volume fraction 0.6, layup
`UD 0°` and manufacturing `Autoclave` yields the unscaled Carbon/Epoxy
baseline record. -/
theorem predict_reference_point :
    predict_properties "Carbon" "Epoxy" 0.6 "UD 0°" "Autoclave" =
      ⟨1500, 130, 1200, 1400, 125, 75, 18⟩ := by
  have hb : base_of "Carbon" "Epoxy" = CarbonEpoxy := rfl
  have hl : layup_factor_of "UD 0°" = (1.0 : ℚ) := rfl
  have hg : manuf_factor_of "Autoclave" = (1.0 : ℚ) := rfl
  have ht : total_factor_of 0.6 "UD 0°" "Autoclave" = 1 := by
    rw [total_factor_of, hl, hg]; norm_num
  simp only [predict_properties, hb, ht, CarbonEpoxy, mul_one]
  have e1 : round1 (1500 : ℚ) = 1500 := by
    have := round1_intCast 1500; push_cast at this; exact this
  have e2 : round1 (130 : ℚ) = 130 := by
    have := round1_intCast 130; push_cast at this; exact this
  have e3 : round1 (1200 : ℚ) = 1200 := by
    have := round1_intCast 1200; push_cast at this; exact this
  have e4 : round1 (1400 : ℚ) = 1400 := by
    have := round1_intCast 1400; push_cast at this; exact this
  have e5 : round1 (125 : ℚ) = 125 := by
    have := round1_intCast 125; push_cast at this; exact this
  have e6 : round1 (75 : ℚ) = 75 := by
    have := round1_intCast 75; push_cast at this; exact this
  have e7 : round1 (18 : ℚ) = 18 := by
    have := round1_intCast 18; push_cast at this; exact this
  rw [e1, e2, e3, e4, e5, e6, e7]

/- Generic facts about association-list lookups with defaults. -/

lemma lookup_getD_prop {α β : Type} [BEq α] (P : β → Prop) {xs : List (α × β)} {d : β}
    (k : α) (hxs : ∀ p ∈ xs, P p.2) (hd : P d) : P ((xs.lookup k).getD d) := by
  induction xs with
  | nil => simpa [List.lookup] using hd
  | cons p t ih =>
    obtain ⟨a, b⟩ := p
    by_cases h : k == a
    · have hb : P b := hxs ⟨a, b⟩ (by simp)
      simp [List.lookup, h, hb]
    · have ht : ∀ q ∈ t, P q.2 := fun q hq => hxs q (by simp [hq])
      simpa [List.lookup, h] using ih ht

/-- Positivity of all seven fields of a property record. -/
def recPos (r : PropRecord) : Prop :=
  0 < r.ts ∧ 0 < r.tm ∧ 0 < r.cs ∧ 0 < r.fs ∧ 0 < r.fm ∧ 0 < r.ilss ∧ 0 < r.ie

lemma carbonEpoxy_pos : recPos CarbonEpoxy := by norm_num [recPos, CarbonEpoxy]

lemma materials_db_pos : ∀ row ∈ MATERIALS_DB, ∀ p ∈ row.2, recPos p.2 := by
  intro row hrow
  simp only [MATERIALS_DB] at hrow
  fin_cases hrow <;>
    · intro p hp
      fin_cases hp <;> norm_num [recPos, CarbonEpoxy]

lemma fiberEntry_pos (f : String) : ∀ p ∈ fiberEntry f, recPos p.2 := by
  rw [fiberEntry]
  exact lookup_getD_prop
    (fun tbl : List (String × PropRecord) => ∀ p ∈ tbl, recPos p.2) _ materials_db_pos (by simp)

lemma base_of_pos (f m : String) : recPos (base_of f m) := by
  rw [base_of]
  exact lookup_getD_prop recPos _ (fiberEntry_pos f) carbonEpoxy_pos

lemma layup_factor_pos (l : String) : 0 < layup_factor_of l := by
  rw [layup_factor_of]
  refine lookup_getD_prop (fun q : ℚ => 0 < q) _ ?_ (by norm_num)
  intro p hp
  simp only [LAYUP_FACTORS] at hp
  fin_cases hp <;> norm_num

lemma manuf_factor_pos (g : String) : 0 < manuf_factor_of g := by
  rw [manuf_factor_of]
  refine lookup_getD_prop (fun q : ℚ => 0 < q) _ ?_ (by norm_num)
  intro p hp
  simp only [MANUFACTURING_FACTORS] at hp
  fin_cases hp <;> norm_num

/-- C4: for every fiber type string that is not a key of the catalog,
`predict_properties` behaves exactly as if the fiber type were `Carbon`. -/
theorem predict_unknown_fiber_falls_back (f : String) (hf : MATERIALS_DB.lookup f = none)
    (m : String) (v : ℚ) (l g : String) :
    predict_properties f m v l g = predict_properties "Carbon" m v l g := by
  have hr : resolvedFiber f = "Carbon" := by simp [resolvedFiber, hf]
  have he : fiberEntry f = fiberEntry "Carbon" := by
    rw [fiberEntry, hr, fiberEntry]
    rfl
  have hb : base_of f m = base_of "Carbon" m := by
    rw [base_of, base_of, resolvedMatrix, resolvedMatrix, he]
  simp only [predict_properties, hb]

/-- Witness for C4 at the spec's concrete instance: the unknown fiber type
`Unknown` is absent from the catalog and falls back to `Carbon`. -/
theorem predict_unknown_fiber_falls_back_witness :
    MATERIALS_DB.lookup "Unknown" = none ∧
      predict_properties "Unknown" "Epoxy" 0.6 "UD 0°" "Autoclave" =
        predict_properties "Carbon" "Epoxy" 0.6 "UD 0°" "Autoclave" :=
  ⟨rfl, predict_unknown_fiber_falls_back "Unknown" rfl "Epoxy" 0.6 "UD 0°" "Autoclave"⟩

/-- C5: matrix fallback is keyed to the resolved fiber: whenever the matrix
type is not a key of the resolved fiber's sub-table, `predict_properties`
behaves as if the matrix type were `Epoxy`, and the base record is the
resolved sub-table's `Epoxy` entry with the defensive Carbon/Epoxy default. -/
theorem predict_unknown_matrix_falls_back (f m : String)
    (hm : (fiberEntry f).lookup m = none) (v : ℚ) (l g : String) :
    predict_properties f m v l g = predict_properties f "Epoxy" v l g ∧
      base_of f m = ((fiberEntry f).lookup "Epoxy").getD CarbonEpoxy := by
  have h1 : resolvedMatrix f m = "Epoxy" := by simp [resolvedMatrix, hm]
  have h2 : resolvedMatrix f "Epoxy" = "Epoxy" := by simp [resolvedMatrix]
  have hb : base_of f m = base_of f "Epoxy" := by rw [base_of, base_of, h1, h2]
  exact ⟨by simp only [predict_properties, hb], by rw [base_of, h1]⟩

/-- Witness for C5: `Nylon` is not a key of the Glass sub-table, so prediction
for Glass/Nylon coincides with Glass/Epoxy. -/
theorem predict_unknown_matrix_falls_back_witness :
    (fiberEntry "Glass").lookup "Nylon" = none ∧
      (predict_properties "Glass" "Nylon" 0.5 "Woven" "RTM" =
          predict_properties "Glass" "Epoxy" 0.5 "Woven" "RTM" ∧
        base_of "Glass" "Nylon" = ((fiberEntry "Glass").lookup "Epoxy").getD CarbonEpoxy) :=
  ⟨rfl, predict_unknown_matrix_falls_back "Glass" "Nylon" rfl 0.5 "Woven" "RTM"⟩

/-- C3: `predict_properties` is total over its categorical inputs — it always
produces a seven-field record (structurally, `Predictions` has exactly seven
fields and the Lean function is total) — and unknown categorical inputs
degrade to the documented defaults: base record Carbon/Epoxy, layup factor
0.85, manufacturing factor 0.95. -/
theorem predict_total_unknown_defaults (f m l g : String) (v : ℚ)
    (hf : MATERIALS_DB.lookup f = none)
    (hm : (fiberEntry f).lookup m = none)
    (hl : LAYUP_FACTORS.lookup l = none)
    (hg : MANUFACTURING_FACTORS.lookup g = none) :
    predict_properties f m v l g =
      { tensile_strength_MPa := round1 (1500 * (v / 0.6 * 0.85 * 0.95)),
        tensile_modulus_GPa := round1 (130 * (v / 0.6 * 0.85 * 0.95)),
        compressive_strength_MPa := round1 (1200 * (v / 0.6 * 0.85 * 0.95)),
        flexural_strength_MPa := round1 (1400 * (v / 0.6 * 0.85 * 0.95)),
        flexural_modulus_GPa := round1 (125 * (v / 0.6 * 0.85 * 0.95)),
        ILSS_MPa := round1 (75 * (v / 0.6 * 0.85 * 0.95)),
        impact_energy_J := round1 (18 * (v / 0.6 * 0.85 * 0.95)) } := by
  have hr : resolvedFiber f = "Carbon" := by simp [resolvedFiber, hf]
  have h1 : resolvedMatrix f m = "Epoxy" := by simp [resolvedMatrix, hm]
  have hb : base_of f m = CarbonEpoxy := by
    rw [base_of, h1, fiberEntry, hr]
    rfl
  have hlf : layup_factor_of l = 0.85 := by rw [layup_factor_of, hl]; rfl
  have hgf : manuf_factor_of g = 0.95 := by rw [manuf_factor_of, hg]; rfl
  simp only [predict_properties, total_factor_of, hb, hlf, hgf, CarbonEpoxy]

/-- Witness for C3 at the empty strings, which match no table key. -/
theorem predict_total_unknown_defaults_witness :
    (MATERIALS_DB.lookup "" = none ∧ (fiberEntry "").lookup "" = none ∧
        LAYUP_FACTORS.lookup "" = none ∧ MANUFACTURING_FACTORS.lookup "" = none) ∧
      predict_properties "" "" 0.5 "" "" =
        { tensile_strength_MPa := round1 (1500 * ((0.5 : ℚ) / 0.6 * 0.85 * 0.95)),
          tensile_modulus_GPa := round1 (130 * ((0.5 : ℚ) / 0.6 * 0.85 * 0.95)),
          compressive_strength_MPa := round1 (1200 * ((0.5 : ℚ) / 0.6 * 0.85 * 0.95)),
          flexural_strength_MPa := round1 (1400 * ((0.5 : ℚ) / 0.6 * 0.85 * 0.95)),
          flexural_modulus_GPa := round1 (125 * ((0.5 : ℚ) / 0.6 * 0.85 * 0.95)),
          ILSS_MPa := round1 (75 * ((0.5 : ℚ) / 0.6 * 0.85 * 0.95)),
          impact_energy_J := round1 (18 * ((0.5 : ℚ) / 0.6 * 0.85 * 0.95)) } :=
  ⟨⟨rfl, rfl, rfl, rfl⟩, predict_total_unknown_defaults "" "" "" "" 0.5 rfl rfl rfl rfl⟩

/- Monotonicity of the rounding function. -/

lemma roundHalfEven_ge_floor (q : ℚ) : ⌊q⌋ ≤ roundHalfEven q := by
  rw [roundHalfEven]; split_ifs <;> omega

lemma roundHalfEven_le_floor_add_one (q : ℚ) : roundHalfEven q ≤ ⌊q⌋ + 1 := by
  rw [roundHalfEven]; split_ifs <;> omega

lemma roundHalfEven_mono {a b : ℚ} (h : a ≤ b) : roundHalfEven a ≤ roundHalfEven b := by
  have hf : ⌊a⌋ ≤ ⌊b⌋ := Int.floor_le_floor h
  rcases lt_or_eq_of_le hf with hlt | heq
  · calc roundHalfEven a ≤ ⌊a⌋ + 1 := roundHalfEven_le_floor_add_one a
      _ ≤ ⌊b⌋ := by omega
      _ ≤ roundHalfEven b := roundHalfEven_ge_floor b
  · rw [roundHalfEven, roundHalfEven, ← heq]
    split_ifs <;> first | omega | linarith

lemma round1_mono {a b : ℚ} (h : a ≤ b) : round1 a ≤ round1 b := by
  rw [round1, round1]
  have h1 : roundHalfEven (10 * a) ≤ roundHalfEven (10 * b) :=
    roundHalfEven_mono (by linarith)
  have h2 : ((roundHalfEven (10 * a) : ℚ)) ≤ (roundHalfEven (10 * b) : ℚ) := by
    exact_mod_cast h1
  linarith

/-- Strict increase, field by field, of the pre-rounding scaled values of
`predict_properties` between two volume fractions. -/
def scaledStrictLt (f m l g : String) (v1 v2 : ℚ) : Prop :=
  (base_of f m).ts * total_factor_of v1 l g < (base_of f m).ts * total_factor_of v2 l g ∧
  (base_of f m).tm * total_factor_of v1 l g < (base_of f m).tm * total_factor_of v2 l g ∧
  (base_of f m).cs * total_factor_of v1 l g < (base_of f m).cs * total_factor_of v2 l g ∧
  (base_of f m).fs * total_factor_of v1 l g < (base_of f m).fs * total_factor_of v2 l g ∧
  (base_of f m).fm * total_factor_of v1 l g < (base_of f m).fm * total_factor_of v2 l g ∧
  (base_of f m).ilss * total_factor_of v1 l g < (base_of f m).ilss * total_factor_of v2 l g ∧
  (base_of f m).ie * total_factor_of v1 l g < (base_of f m).ie * total_factor_of v2 l g

/-- Field-wise order on the seven output fields. -/
def predictionsLe (p q : Predictions) : Prop :=
  p.tensile_strength_MPa ≤ q.tensile_strength_MPa ∧
  p.tensile_modulus_GPa ≤ q.tensile_modulus_GPa ∧
  p.compressive_strength_MPa ≤ q.compressive_strength_MPa ∧
  p.flexural_strength_MPa ≤ q.flexural_strength_MPa ∧
  p.flexural_modulus_GPa ≤ q.flexural_modulus_GPa ∧
  p.ILSS_MPa ≤ q.ILSS_MPa ∧
  p.impact_energy_J ≤ q.impact_energy_J

/-- C6 counterexample: the claim that every output field strictly increases
with the volume fraction is false on the code. With v1 = 0.6 < v2 = 0.60001
(both inside [0.3, 0.7]) the tensile strength field is 1500.0 at both inputs,
because the increase disappears in the one-decimal rounding. -/
theorem predict_strict_monotone_cex :
    (0.3 : ℚ) ≤ 0.6 ∧ (0.6 : ℚ) < 0.60001 ∧ (0.60001 : ℚ) ≤ 0.7 ∧
      (predict_properties "Carbon" "Epoxy" 0.6 "UD 0°" "Autoclave").tensile_strength_MPa = 1500 ∧
      (predict_properties "Carbon" "Epoxy" 0.60001 "UD 0°" "Autoclave").tensile_strength_MPa
        = 1500 := by
  have hb : base_of "Carbon" "Epoxy" = CarbonEpoxy := rfl
  have hl : layup_factor_of "UD 0°" = (1.0 : ℚ) := rfl
  have hg : manuf_factor_of "Autoclave" = (1.0 : ℚ) := rfl
  have ht1 : total_factor_of 0.6 "UD 0°" "Autoclave" = 1 := by
    rw [total_factor_of, hl, hg]; norm_num
  have ht2 : total_factor_of 0.60001 "UD 0°" "Autoclave" = 60001 / 60000 := by
    rw [total_factor_of, hl, hg]; norm_num
  have e1 : round1 (1500 : ℚ) = ((15000 : ℤ) : ℚ) / 10 :=
    round1_eval_low 15000 (by norm_num) (by norm_num)
  have e2 : round1 ((60001 : ℚ) / 40) = ((15000 : ℤ) : ℚ) / 10 :=
    round1_eval_low 15000 (by norm_num) (by norm_num)
  refine ⟨by norm_num, by norm_num, by norm_num, ?_, ?_⟩
  · simp only [predict_properties, hb, ht1, CarbonEpoxy, mul_one]
    rw [e1]; norm_num
  · simp only [predict_properties, hb, ht2, CarbonEpoxy]
    rw [show (1500 : ℚ) * (60001 / 60000) = 60001 / 40 by norm_num, e2]; norm_num

/-- C6 (amended): for fixed categorical inputs and volume fractions
`v1 < v2` inside [0.3, 0.7], every pre-rounding scaled field strictly
increases (the scaling is linear in the volume fraction), and every rounded
output field of `predict_properties` is monotone non-decreasing; strictness
of the rounded outputs fails only by the one-decimal rounding. -/
theorem predict_monotone_vf (f m l g : String) {v1 v2 : ℚ}
    (h1 : (0.3 : ℚ) ≤ v1) (h12 : v1 < v2) (h2 : v2 ≤ (0.7 : ℚ)) :
    scaledStrictLt f m l g v1 v2 ∧
      predictionsLe (predict_properties f m v1 l g) (predict_properties f m v2 l g) := by
  have hlp := layup_factor_pos l
  have hgp := manuf_factor_pos g
  have htf : total_factor_of v1 l g < total_factor_of v2 l g := by
    have s1 : v1 * (0.6 : ℚ)⁻¹ < v2 * (0.6 : ℚ)⁻¹ :=
      mul_lt_mul_of_pos_right h12 (by norm_num)
    have s2 := mul_lt_mul_of_pos_right s1 hlp
    have s3 := mul_lt_mul_of_pos_right s2 hgp
    simpa [total_factor_of, div_eq_mul_inv] using s3
  obtain ⟨p1, p2, p3, p4, p5, p6, p7⟩ := base_of_pos f m
  have s1 := mul_lt_mul_of_pos_left htf p1
  have s2 := mul_lt_mul_of_pos_left htf p2
  have s3 := mul_lt_mul_of_pos_left htf p3
  have s4 := mul_lt_mul_of_pos_left htf p4
  have s5 := mul_lt_mul_of_pos_left htf p5
  have s6 := mul_lt_mul_of_pos_left htf p6
  have s7 := mul_lt_mul_of_pos_left htf p7
  refine ⟨⟨s1, s2, s3, s4, s5, s6, s7⟩, ?_⟩
  simp only [predict_properties, predictionsLe]
  exact ⟨round1_mono s1.le, round1_mono s2.le, round1_mono s3.le, round1_mono s4.le,
    round1_mono s5.le, round1_mono s6.le, round1_mono s7.le⟩

/-- Witness for the amended C6 at Carbon/Epoxy, v1 = 0.3, v2 = 0.7. -/
theorem predict_monotone_vf_witness :
    ((0.3 : ℚ) ≤ 0.3 ∧ (0.3 : ℚ) < 0.7 ∧ (0.7 : ℚ) ≤ 0.7) ∧
      scaledStrictLt "Carbon" "Epoxy" "UD 0°" "Autoclave" 0.3 0.7 ∧
      predictionsLe (predict_properties "Carbon" "Epoxy" 0.3 "UD 0°" "Autoclave")
        (predict_properties "Carbon" "Epoxy" 0.7 "UD 0°" "Autoclave") :=
  ⟨⟨by norm_num, by norm_num, by norm_num⟩,
    predict_monotone_vf "Carbon" "Epoxy" "UD 0°" "Autoclave"
      (by norm_num) (by norm_num) (by norm_num)⟩

/- The request-handling boundary of `src/app.py`. -/

/-- Value found under the `fiber_volume_fraction` key of a request dict:
absent, a numeric value, or a value whose `float(...)` conversion fails. -/
inductive VfInput where
  | missing
  | num (q : ℚ)
  | invalid (err : String)
deriving DecidableEq

/-- Conversion `float(data.get('fiber_volume_fraction', 0.6))` (lines 203 and
267): a missing key defaults to 0.6, a numeric value converts, and a
non-numeric value raises `ValueError` with some message, modelled as
`Except.error` carrying that message. -/
def VfInput.toFloat : VfInput → Except String ℚ
  | .missing => .ok 0.6
  | .num q => .ok q
  | .invalid err => .error err

/-- A request dict as read by `predict` and by each iteration of
`predict_batch`: every categorical key is optional (`data.get` with default)
and the volume fraction is a `VfInput`. -/
structure Sample where
  fiber_type : Option String
  matrix_type : Option String
  fiber_volume_fraction : VfInput
  layup : Option String
  manufacturing : Option String
deriving DecidableEq

/-- Response of the `/api/predict` route: a 400 client error carrying
`success: False` and an error message, or a 200 response carrying
`success: True` and the predictions (plus echoed input and units, not
modelled). -/
inductive SingleResp where
  | badRequest (error : String)
  | ok (predictions : Predictions)
deriving DecidableEq

/-- The `/api/predict` handler `predict` (lines 194–246): extract the
parameters with defaults (a failed `float` conversion raises `ValueError`,
caught on line 236 and answered with a 400 error), reject a volume fraction
outside [0.3, 0.7] with a 400 error before computing anything, and otherwise
answer with `predict_properties`. -/
def predict (data : Sample) : SingleResp :=
  match data.fiber_volume_fraction.toFloat with
  | .error e => .badRequest ("Invalid input: " ++ e)
  | .ok fiber_vf =>
    if (0.3 : ℚ) ≤ fiber_vf ∧ fiber_vf ≤ 0.7 then
      .ok (predict_properties (data.fiber_type.getD "Carbon") (data.matrix_type.getD "Epoxy")
        fiber_vf (data.layup.getD "UD 0°") (data.manufacturing.getD "Autoclave"))
    else
      .badRequest "Fiber volume fraction must be between 0.3 and 0.7"

/-- One result entry of the batch endpoint: `{index, input, predictions,
success}` on success, `{index, input, success, error}` on failure. -/
structure BatchItem where
  index : ℕ
  input : Sample
  predictions : Option Predictions
  success : Bool
  error : Option String
deriving DecidableEq

/-- Loop body of `predict_batch` (lines 263–285): attempt the extraction and
prediction for one sample; on any exception record a failure entry for this
index only. -/
def predict_batch_item (idx : ℕ) (sample : Sample) : BatchItem :=
  match sample.fiber_volume_fraction.toFloat with
  | .error e => ⟨idx, sample, none, false, some e⟩
  | .ok fiber_vf =>
    ⟨idx, sample,
      some (predict_properties (sample.fiber_type.getD "Carbon")
        (sample.matrix_type.getD "Epoxy") fiber_vf (sample.layup.getD "UD 0°")
        (sample.manufacturing.getD "Autoclave")),
      true, none⟩

/-- Response of the `/api/predict/batch` route: a 400 error (empty sample
list), or a 200 response carrying one result per sample. -/
inductive BatchResp where
  | badRequest (error : String)
  | ok (results : List BatchItem)
deriving DecidableEq

/-- The `/api/predict/batch` handler (lines 249–298). -/
def predict_batch (samples : List Sample) : BatchResp :=
  if samples.isEmpty then .badRequest "No samples provided"
  else .ok (samples.enum.map fun p => predict_batch_item p.1 p.2)

/-- The results list of a batch response, when one is returned at all. -/
def BatchResp.resultsList : BatchResp → Option (List BatchItem)
  | .ok rs => some rs
  | .badRequest _ => none

/-- Shared helper: the single-prediction route answers the descriptive 400
error whenever the numeric volume fraction is out of range. -/
lemma predict_out_of_range_aux (data : Sample) (v : ℚ)
    (hv : data.fiber_volume_fraction = .num v) (hout : v < 0.3 ∨ 0.7 < v) :
    predict data = .badRequest "Fiber volume fraction must be between 0.3 and 0.7" := by
  have h1 : data.fiber_volume_fraction.toFloat = .ok v := by rw [hv]; rfl
  have hcond : ¬ ((0.3 : ℚ) ≤ v ∧ v ≤ 0.7) := by
    rcases hout with h | h
    · exact fun hc => absurd hc.1 (not_le.mpr h)
    · exact fun hc => absurd hc.2 (not_le.mpr h)
  simp only [predict, h1]
  rw [if_neg hcond]

/-- C7: a single-prediction request whose `fiber_volume_fraction` is numeric
but outside the inclusive range [0.3, 0.7] is answered by `/api/predict` with
the descriptive client error; the error response carries no predictions, so
`predict_properties` is never invoked for the request. -/
theorem predict_rejects_out_of_range (data : Sample) (v : ℚ)
    (hv : data.fiber_volume_fraction = .num v) (hout : v < 0.3 ∨ 0.7 < v) :
    predict data = .badRequest "Fiber volume fraction must be between 0.3 and 0.7" :=
  predict_out_of_range_aux data v hv hout

/-- Witness for C7 at the spec's example value 0.25. -/
theorem predict_rejects_out_of_range_witness :
    (Sample.mk none none (.num 0.25) none none).fiber_volume_fraction = VfInput.num 0.25 ∧
      ((0.25 : ℚ) < 0.3 ∨ (0.7 : ℚ) < 0.25) ∧
      predict (Sample.mk none none (.num 0.25) none none) =
        .badRequest "Fiber volume fraction must be between 0.3 and 0.7" :=
  ⟨rfl, Or.inl (by norm_num),
    predict_rejects_out_of_range (Sample.mk none none (.num 0.25) none none) 0.25 rfl
      (Or.inl (by norm_num))⟩

/-- C8 counterexample: the claim quantifies over every ordered sequence of
batch samples, but the empty sequence is answered with a 400 error
(`No samples provided`) and no results list at all, not with one (vacuous)
result per sample. -/
theorem predict_batch_isolates_cex :
    predict_batch [] = .badRequest "No samples provided" ∧
      (predict_batch []).resultsList = none :=
  ⟨rfl, rfl⟩

/-- C8 (amended): for every nonempty sequence of batch samples, the batch
endpoint returns one result per sample in input order tagged with its
original index; a sample whose volume-fraction conversion fails yields
`{index, input, success: false, error}` while every other sample yields
`{index, input, predictions, success: true}` with predictions equal to a
standalone `predict_properties` call on the same extracted inputs. -/
theorem predict_batch_isolates (samples : List Sample) (h : samples ≠ []) :
    ∃ results : List BatchItem,
      predict_batch samples = .ok results ∧
      results.length = samples.length ∧
      ∀ (i : ℕ) (s : Sample), samples[i]? = some s →
        ((∀ e, s.fiber_volume_fraction.toFloat = .error e →
            results[i]? = some ⟨i, s, none, false, some e⟩) ∧
          (∀ v, s.fiber_volume_fraction.toFloat = .ok v →
            results[i]? = some ⟨i, s,
              some (predict_properties (s.fiber_type.getD "Carbon")
                (s.matrix_type.getD "Epoxy") v (s.layup.getD "UD 0°")
                (s.manufacturing.getD "Autoclave")), true, none⟩)) := by
  obtain ⟨a, t, rfl⟩ : ∃ a t, samples = a :: t := by
    cases samples with
    | nil => exact absurd rfl h
    | cons a t => exact ⟨a, t, rfl⟩
  refine ⟨(a :: t).enum.map fun p => predict_batch_item p.1 p.2, ?_, ?_, ?_⟩
  · rw [predict_batch, if_neg (by simp)]
  · simp [List.length_map, List.enum_length]
  · intro i s hs
    have hr : ((a :: t).enum.map fun p => predict_batch_item p.1 p.2)[i]? =
        some (predict_batch_item i s) := by
      rw [List.getElem?_map, List.getElem?_enum, hs]
      rfl
    constructor
    · intro e he
      rw [hr]
      simp [predict_batch_item, he]
    · intro v hv
      rw [hr]
      simp [predict_batch_item, hv]

/-- Witness for the amended C8: a two-sample batch whose first sample has a
non-convertible volume fraction and whose second sample is valid. -/
theorem predict_batch_isolates_witness :
    ([Sample.mk none none (.invalid "boom") none none,
        Sample.mk (some "Glass") (some "Epoxy") (.num 0.5) (some "Woven") (some "RTM")] ≠
        ([] : List Sample)) ∧
      ∃ results : List BatchItem,
        predict_batch
            [Sample.mk none none (.invalid "boom") none none,
              Sample.mk (some "Glass") (some "Epoxy") (.num 0.5) (some "Woven") (some "RTM")] =
          .ok results ∧
        results.length =
          [Sample.mk none none (.invalid "boom") none none,
            Sample.mk (some "Glass") (some "Epoxy") (.num 0.5) (some "Woven")
              (some "RTM")].length ∧
        ∀ (i : ℕ) (s : Sample),
          [Sample.mk none none (.invalid "boom") none none,
            Sample.mk (some "Glass") (some "Epoxy") (.num 0.5) (some "Woven")
              (some "RTM")][i]? = some s →
          ((∀ e, s.fiber_volume_fraction.toFloat = .error e →
              results[i]? = some ⟨i, s, none, false, some e⟩) ∧
            (∀ v, s.fiber_volume_fraction.toFloat = .ok v →
              results[i]? = some ⟨i, s,
                some (predict_properties (s.fiber_type.getD "Carbon")
                  (s.matrix_type.getD "Epoxy") v (s.layup.getD "UD 0°")
                  (s.manufacturing.getD "Autoclave")), true, none⟩)) :=
  ⟨by simp,
    predict_batch_isolates
      [Sample.mk none none (.invalid "boom") none none,
        Sample.mk (some "Glass") (some "Epoxy") (.num 0.5) (some "Woven") (some "RTM")]
      (by simp)⟩

/-- C10: the batch endpoint performs no range validation on the volume
fraction: a one-sample batch with any numeric volume fraction — also one
outside [0.3, 0.7] — is answered with `success: true` and the standalone
`predict_properties` result, while the same request to the single-prediction
endpoint is rejected whenever the value is out of range. -/
theorem predict_batch_no_range_validation (s : Sample) (v : ℚ)
    (hv : s.fiber_volume_fraction = .num v) :
    predict_batch [s] = .ok [⟨0, s,
        some (predict_properties (s.fiber_type.getD "Carbon") (s.matrix_type.getD "Epoxy")
          v (s.layup.getD "UD 0°") (s.manufacturing.getD "Autoclave")), true, none⟩] ∧
      ((v < 0.3 ∨ 0.7 < v) →
        predict s = .badRequest "Fiber volume fraction must be between 0.3 and 0.7") := by
  have h1 : s.fiber_volume_fraction.toFloat = .ok v := by rw [hv]; rfl
  constructor
  · rw [predict_batch, if_neg (by simp)]
    simp [List.enum, List.enumFrom, predict_batch_item, h1]
  · exact fun hout => predict_out_of_range_aux s v hv hout

/-- Witness for C10 at the out-of-range value 0.25: the batch endpoint
reports success while the single endpoint rejects. -/
theorem predict_batch_no_range_validation_witness :
    (Sample.mk none none (.num 0.25) none none).fiber_volume_fraction = VfInput.num 0.25 ∧
      (predict_batch [Sample.mk none none (.num 0.25) none none] =
          .ok [⟨0, Sample.mk none none (.num 0.25) none none,
            some (predict_properties "Carbon" "Epoxy" 0.25 "UD 0°" "Autoclave"),
            true, none⟩] ∧
        (((0.25 : ℚ) < 0.3 ∨ (0.7 : ℚ) < 0.25) →
          predict (Sample.mk none none (.num 0.25) none none) =
            .badRequest "Fiber volume fraction must be between 0.3 and 0.7")) :=
  ⟨rfl, predict_batch_no_range_validation (Sample.mk none none (.num 0.25) none none) 0.25 rfl⟩

/-- Boolean check that all seven fields of a property record are strictly
positive. -/
def recPosB (r : PropRecord) : Bool :=
  decide (0 < r.ts) && decide (0 < r.tm) && decide (0 < r.cs) && decide (0 < r.fs) &&
    decide (0 < r.fm) && decide (0 < r.ilss) && decide (0 < r.ie)

/-- C9: the Material Catalog contains exactly the 5 fiber types, each with a
sub-table of exactly the 5 matrix types — a fully dense 5×5 grid of 25
records — and every record has its seven property fields strictly
positive. -/
theorem materials_db_complete :
    MATERIALS_DB.length = 5 ∧
    MATERIALS_DB.map Prod.fst = ["Carbon", "Glass", "Aramid", "Basalt", "Natural"] ∧
    (MATERIALS_DB.map fun p => p.2.map Prod.fst) =
      List.replicate 5 ["Epoxy", "Polyester", "Vinyl_ester", "PEEK", "PA6"] ∧
    (MATERIALS_DB.flatMap fun p => p.2).length = 25 ∧
    ((MATERIALS_DB.flatMap fun p => p.2).map Prod.snd).all recPosB = true := by
  refine ⟨rfl, rfl, rfl, rfl, ?_⟩
  rw [List.all_eq_true]
  intro r hr
  simp only [List.mem_map, List.mem_flatMap] at hr
  obtain ⟨⟨k, rec⟩, ⟨row, hrow, hmem⟩, rfl⟩ := hr
  obtain ⟨h1, h2, h3, h4, h5, h6, h7⟩ := materials_db_pos row hrow ⟨k, rec⟩ hmem
  simp only [recPosB, Bool.and_eq_true, decide_eq_true_eq]
  exact ⟨⟨⟨⟨⟨⟨h1, h2⟩, h3⟩, h4⟩, h5⟩, h6⟩, h7⟩
